import Mathlib

/-!
Verification of the redocly-cli type-descriptor model.

Shallow embedding of:
* `src/packages/core/src/types/oas3.ts`   (namespace `Oas3_core`)
* `src/unnamed/part_000`                  (namespace `Oas3_p0`; a second copy of
  the OpenAPI 3 table differing only in `description`/`documentationLink` text)
* `src/packages/core/src/types/asyncapi2.ts` (namespace `Async2`)

Descriptive-only fields (`description`, `documentationLink`) carry no
validation semantics and are not represented.  Operations whose code is not
part of the given sources (the generic resolution / required / allowed checks,
the `listOf` / `mapOf` combinators, and the `isMappingRef` classifier from
`ref-utils`) are modelled from the specification and carry a doc comment
saying so.
-/

/-- Raw document values handed to resolver / required / allowed functions:
the already-parsed JSON-like tree (spec section 6: mapping, sequence and
scalar nodes, plus the JS `null`/`undefined` distinction that the
optional chaining `value?.type` in the sources is sensitive to). -/
inductive JValue where
  | jnull
  | jundefined
  | jbool (b : Bool)
  | jnum (n : Int)
  | jstr (s : String)
  | jarr (elems : List JValue)
  | jobj (fields : List (String × JValue))

/-- JS property access with optional chaining, `value?.k`: `undefined` (here
`none`) when the value is not an object or lacks the key. -/
def getField (v : JValue) (k : String) : Option JValue :=
  match v with
  | .jobj fields => List.lookup k fields
  | _ => none

/-- Whether key `k` is present on the node value (used by the
missing-required-keys check). -/
def hasKey (v : JValue) (k : String) : Bool :=
  (getField v k).isSome

/-- The keys present on an object node value (empty for non-objects). -/
def keysOf (v : JValue) : List String :=
  match v with
  | .jobj fields => fields.map Prod.fst
  | _ => []

/-- Scalar type names usable in a leaf constraint (`type:` field values). -/
inductive ScalarType where
  | string | boolean | integer | number | object | array
deriving DecidableEq, Repr

/-- Inline leaf constraint objects of the source tables (spec: Leaf
Constraint).  Fields mirror the constraint keys actually used in the three
source files: `type`, `items`, `enum`, `minimum`, `additionalProperties`,
`isExample`, `resolvable`, `directResolveAs`.  Descriptive text is dropped. -/
inductive JSchema where
  | mk (ty : Option ScalarType) (items : Option JSchema)
       (enumVals : Option (List String)) (minimum : Option Int)
       (addProps : Option JSchema) (isExample : Bool)
       (resolvable : Bool) (directResolveAs : Option String)

/-- Leaf constraint `{}` (empty constraint object). -/
def sEmpty : JSchema := .mk none none none none none false true none

/-- Leaf constraint `{ type: string }` -/
def sString : JSchema := .mk (some .string) none none none none false true none

/-- Leaf constraint `{ type: boolean }` -/
def sBoolean : JSchema := .mk (some .boolean) none none none none false true none

/-- Leaf constraint `{ type: number }` -/
def sNumber : JSchema := .mk (some .number) none none none none false true none

/-- Leaf constraint `{ type: number, minimum: 0 }` -/
def sNumber0 : JSchema := .mk (some .number) none none (some 0) none false true none

/-- Leaf constraint `{ type: integer }` -/
def sInteger : JSchema := .mk (some .integer) none none none none false true none

/-- Leaf constraint `{ type: integer, minimum: 0 }` -/
def sInteger0 : JSchema := .mk (some .integer) none none (some 0) none false true none

/-- Leaf constraint `{ type: object }` -/
def sObject : JSchema := .mk (some .object) none none none none false true none

/-- Leaf constraint `{ type: array }` -/
def sArray : JSchema := .mk (some .array) none none none none false true none

/-- Leaf constraint `{ type: array, items: { type: string } }` -/
def sArrayOfString : JSchema := .mk (some .array) (some sString) none none none false true none

/-- Leaf constraint `{ enum: [...] }` (no `type`). -/
def sEnum (vs : List String) : JSchema := .mk none none (some vs) none none false true none

/-- Leaf constraint `{ type: string, enum: [...] }` -/
def sStrEnum (vs : List String) : JSchema :=
  .mk (some .string) none (some vs) none none false true none

/-- Leaf constraint `{ isExample: true }` -/
def sExample : JSchema := .mk none none none none none true true none

/-- Leaf constraint `{ resolvable: false }` -/
def sNonResolvable : JSchema := .mk none none none none none false false none

/-- Leaf constraint `{ type: object, additionalProperties: { type: string } }` (the
`scopes` constraint of the OAuth2 flow descriptors). -/
def sScopes : JSchema := .mk (some .object) none none none (some sString) false true none

/-- Leaf constraint `{ type: string, directResolveAs: Schema }` (returned by the
discriminator-mapping resolver for pointer-shaped values). -/
def sStringDirectSchema : JSchema :=
  .mk (some .string) none none none none false true (some "Schema")

/-- Leaf constraint `{ type: array, items: { enum: [delete, compact] } }`
(Kafka topic configuration `cleanup.policy`). -/
def sArrayOfCleanupPolicy : JSchema :=
  .mk (some .array) (some (sEnum ["delete", "compact"])) none none none false true none

/-- JS `s.startsWith(p)`, computed on the character lists (the byte-level
`String.startsWith` of the Lean core library does not reduce inside the
kernel). -/
def strStartsWith (s p : String) : Bool := List.isPrefixOf p.data s.data

/-- Embedding of `responseCodeRegexp = /^[0-9][0-9Xx]{2}$/` applied via
`.test(key)` (src/packages/core/src/types/oas3.ts line 4 and
src/unnamed/part_000 line 4): exactly three characters, the first a digit,
the second and third each a digit, `X`, or `x`. -/
def isResponseCodeKey (k : String) : Bool :=
  match k.data with
  | [c0, c1, c2] =>
      c0.isDigit && (c1.isDigit || c1 = 'X' || c1 = 'x')
        && (c2.isDigit || c2 = 'X' || c2 = 'x')
  | _ => false

/-- Embedding of `key.match(/^[A-Za-z0-9_\-]+$/)` (the `ServerMap`
additional-properties resolver of asyncapi2.ts, lines 200-203): key is
nonempty and every character is a letter, digit, underscore or hyphen. -/
def isServerMapKey (k : String) : Bool :=
  !k.data.isEmpty && k.data.all (fun c => c.isAlphanum || c = '_' || c = '-')

/-- Modelled from the spec: the Reference Classifier predicate
(`isMappingRef` from `ref-utils`, whose source is not included).  Spec
section 4.5: the classifier inspects whether the raw discriminator-mapping
value "looks like a cross-document or intra-document pointer token"; a plain
label string such as `"Dog"` is not pointer-shaped (spec section 8,
Scenario 3).  A value is pointer-shaped when it is a string that starts
with `#` (intra-document pointer), is an absolute or relative URL, or
contains a `/` path separator. -/
def isMappingRef (v : JValue) : Bool :=
  match v with
  | .jstr s =>
      strStartsWith s "#" || strStartsWith s "http://" || strStartsWith s "https://"
        || strStartsWith s "./" || strStartsWith s "../"
        || s.data.contains '/'
  | _ => false

/-- The conditional `required` function of the OpenAPI 3 `SecurityScheme`
descriptor (oas3.ts lines 587-600; the same function appears verbatim in
src/unnamed/part_000 lines 665-678): a `switch` on `value?.type`. -/
def oas3SecuritySchemeRequiredFn (value : JValue) : List String :=
  match getField value "type" with
  | some (.jstr "apiKey") => ["type", "name", "in"]
  | some (.jstr "http") => ["type", "scheme"]
  | some (.jstr "oauth2") => ["type", "flows"]
  | some (.jstr "openIdConnect") => ["type", "openIdConnectUrl"]
  | _ => ["type"]

/-- The conditional `allowed` function of the OpenAPI 3 `SecurityScheme`
descriptor (oas3.ts lines 601-614; verbatim in src/unnamed/part_000 lines
679-692). -/
def oas3SecuritySchemeAllowedFn (value : JValue) : List String :=
  match getField value "type" with
  | some (.jstr "apiKey") => ["type", "name", "in", "description"]
  | some (.jstr "http") => ["type", "scheme", "bearerFormat", "description"]
  | some (.jstr "oauth2") => ["type", "flows", "description"]
  | some (.jstr "openIdConnect") => ["type", "openIdConnectUrl", "description"]
  | _ => ["type", "description"]

/-- The conditional `required` function of the AsyncAPI 2 `SecurityScheme`
descriptor (asyncapi2.ts lines 510-525). -/
def async2SecuritySchemeRequiredFn (value : JValue) : List String :=
  match getField value "type" with
  | some (.jstr "apiKey") => ["type", "in"]
  | some (.jstr "httpApiKey") => ["type", "name", "in"]
  | some (.jstr "http") => ["type", "scheme"]
  | some (.jstr "oauth2") => ["type", "flows"]
  | some (.jstr "openIdConnect") => ["type", "openIdConnectUrl"]
  | _ => ["type"]

/-- The conditional `allowed` function of the AsyncAPI 2 `SecurityScheme`
descriptor (asyncapi2.ts lines 526-541). -/
def async2SecuritySchemeAllowedFn (value : JValue) : List String :=
  match getField value "type" with
  | some (.jstr "apiKey") => ["type", "in", "description"]
  | some (.jstr "httpApiKey") => ["type", "name", "in", "description"]
  | some (.jstr "http") => ["type", "scheme", "bearerFormat", "description"]
  | some (.jstr "oauth2") => ["type", "flows", "description"]
  | some (.jstr "openIdConnect") => ["type", "openIdConnectUrl", "description"]
  | _ => ["type", "description"]

/-- The constant protocol-name list returned by the `allowed()` functions of
the four AsyncAPI 2 bindings descriptors (`ChannelBindings` lines 60-83,
`ServerBindings` lines 135-158, `MessageBindings` lines 303-326,
`OperationBindings` lines 332-355 of asyncapi2.ts; the four bodies are
textually identical). -/
def asyncApi2BindingsAllowedList : List String :=
  ["http", "ws", "kafka", "anypointmq", "amqp", "amqp1", "mqtt", "mqtt5",
   "nats", "jms", "sns", "solace", "sqs", "stomp", "redis", "mercure",
   "ibmmq", "googlepubsub", "pulsar"]

/-- Deep-embedded tag for each `required` rule of the sources: either a
fixed key array or one of the named conditional functions above. -/
inductive RequiredRule where
  | fixed (keys : List String)
  | oas3SecuritySchemeReq
  | async2SecuritySchemeReq

/-- Evaluate a `required` rule at a node value (spec section 4.2: "resolve
`D.required` (call with `V` if it is a function) to a concrete key set"). -/
def evalRequired : RequiredRule → JValue → List String
  | .fixed ks, _ => ks
  | .oas3SecuritySchemeReq, v => oas3SecuritySchemeRequiredFn v
  | .async2SecuritySchemeReq, v => async2SecuritySchemeRequiredFn v

/-- Deep-embedded tag for each `allowed` function of the sources. -/
inductive AllowedRule where
  | oas3SecuritySchemeAllow
  | async2SecuritySchemeAllow
  | asyncApi2BindingsAllow

/-- Evaluate an `allowed` rule at a node value. -/
def evalAllowed : AllowedRule → JValue → List String
  | .oas3SecuritySchemeAllow, v => oas3SecuritySchemeAllowedFn v
  | .async2SecuritySchemeAllow, v => async2SecuritySchemeAllowedFn v
  | .asyncApi2BindingsAllow, _ => asyncApi2BindingsAllowedList

/-- Deep-embedded tag for each property-rule resolver function occurring in
the source tables; `evalResolverOutcome` below gives each tag its body. -/
inductive ResolverTag where
  | pathsAdditional            -- oas3 Paths.additionalProperties
  | webhooksAdditional         -- oas3 WebhooksMap.additionalProperties
  | responsesAdditional        -- oas3 Responses.additionalProperties
  | schemaItems                -- oas3 Schema.properties.items
  | schemaAdditionalProps      -- oas3 Schema.properties.additionalProperties
  | xUsePkceProp               -- oas3 AuthorizationCode.properties[x-usePkce]
  | discriminatorMappingAdditional -- oas3 DiscriminatorMapping.additionalProperties
  | serverMapAdditional        -- asyncapi2 ServerMap.additionalProperties

/-- Property Rule (spec section 3): `null`, a reference by type name, an
inline leaf constraint, an inline `listOf(name)` descriptor, an inline
occurrence of a named module-level descriptor object (the post-hoc binding
patches assign the descriptor object itself; it is identified here by its
module-level constant name), or a resolver function. -/
inductive PropRule where
  | nullRule
  | ref (name : String)
  | leaf (s : JSchema)
  | inlineListOf (name : String)
  | inlineNode (name : String)
  | resolver (t : ResolverTag)

/-- Outcome of resolving one child key (spec section 4.1): recurse into a
named descriptor, check a leaf constraint, recurse into an inline
sequence-of descriptor, recurse into an inline descriptor object (identified
by its module-level name), or accept with no further checks. -/
inductive ResolvedRule where
  | ref (name : String)
  | leaf (s : JSchema)
  | listOfType (name : String)
  | inlineNode (name : String)
  | accepted

/-- Body of each resolver function, from the source, as a function of the
node value and child key; `none` is the JS `undefined` return ("reject"). -/
def evalResolverOutcome : ResolverTag → JValue → String → Option ResolvedRule
  | .pathsAdditional, _, key =>
      -- (_value, key) => key.startsWith('/') ? PathItem : undefined
      if strStartsWith key "/" then some (.ref "PathItem") else none
  | .webhooksAdditional, _, _ =>
      -- () => PathItem
      some (.ref "PathItem")
  | .responsesAdditional, _, key =>
      -- (_v, key) => responseCodeRegexp.test(key) ? Response : undefined
      if isResponseCodeKey key then some (.ref "Response") else none
  | .schemaItems, v, _ =>
      -- (value) => Array.isArray(value) ? listOf(Schema) : Schema
      match v with
      | .jarr _ => some (.listOfType "Schema")
      | _ => some (.ref "Schema")
  | .schemaAdditionalProps, v, _ =>
      -- (value) => typeof value === boolean ? { type: boolean } : Schema
      match v with
      | .jbool _ => some (.leaf sBoolean)
      | _ => some (.ref "Schema")
  | .xUsePkceProp, v, _ =>
      -- (value) => typeof value === boolean ? { type: boolean } : XUsePkce
      match v with
      | .jbool _ => some (.leaf sBoolean)
      | _ => some (.ref "XUsePkce")
  | .discriminatorMappingAdditional, v, _ =>
      -- (value) => isMappingRef(value)
      --   ? { type: string, directResolveAs: Schema } : { type: string }
      if isMappingRef v then some (.leaf sStringDirectSchema)
      else some (.leaf sString)
  | .serverMapAdditional, _, key =>
      -- (_value, key) => key.match(/^[A-Za-z0-9_\-]+$/) ? Server : undefined
      if isServerMapKey key then some (.ref "Server") else none

/-- Resolve one Property Rule at a child value/key (spec section 4.1: a
static rule is used directly; a resolver is evaluated, `Undetermined`
(`none`) meaning rejection). -/
def evalRule (r : PropRule) (v : JValue) (k : String) : Option ResolvedRule :=
  match r with
  | .nullRule => some .accepted
  | .ref n => some (.ref n)
  | .leaf s => some (.leaf s)
  | .inlineListOf n => some (.listOfType n)
  | .inlineNode n => some (.inlineNode n)
  | .resolver t => evalResolverOutcome t v k

/-- Type Descriptor (spec section 3).  Field names follow the `NodeType` naming of
the sources; `items` is the sequence marker used by the `listOf` combinator.
`description` / `documentationLink` are descriptive-only and omitted. -/
structure NodeType where
  properties : List (String × PropRule)
  additionalProperties : Option PropRule := none
  required : Option RequiredRule := none
  requiredOneOf : Option (List String) := none
  allowed : Option AllowedRule := none
  extensionsPrefix : Option String := none
  items : Option String := none

/-- Modelled from the spec: the `listOf` combinator (`./index.js`, not
included in the sources).  Spec section 4.3 / section 3 invariants: a
sequence-of descriptor is an ordinary descriptor whose single dynamic rule
is a Reference to the element type name; `overrides` arguments supply
descriptive-only fields that do not affect validation semantics and are
therefore not represented (every override passed in the three source files
carries only `description` / `documentationLink`). -/
def listOf (name : String) : NodeType :=
  { properties := [], items := some name }

/-- Modelled from the spec: the `mapOf` combinator (`./index.js`, not
included in the sources).  Spec sections 4.3 and 8: resolving any string key
of a map-of descriptor returns a Reference to the value type name. -/
def mapOf (name : String) : NodeType :=
  { properties := [], additionalProperties := some (PropRule.ref name) }

/-- JS property assignment `D.properties[k] = r` used by the post-hoc
binding patch statements: replaces the entry when `k` is already present,
otherwise appends it. -/
def insertProp : List (String × PropRule) → String → PropRule → List (String × PropRule)
  | [], k, r => [(k, r)]
  | (k0, r0) :: rest, k, r =>
      if k0 = k then (k, r) :: rest else (k0, r0) :: insertProp rest k r

/-- One post-hoc patch statement `D.properties.k = rule` (spec section 4.4,
registry post-hoc extension). -/
def setProp (D : NodeType) (k : String) (r : PropRule) : NodeType :=
  { D with properties := insertProp D.properties k r }

/-- Whether the extension prefix of a descriptor matches the key. -/
def extMatches : Option String → String → Bool
  | some p, k => strStartsWith k p
  | none, _ => false

/-- Modelled from the spec: the child-resolution algorithm of section 4.1
(`resolveChild`, part of the generic walker, not included in the sources).
1. an explicit `properties` entry wins; 2. else an extension-prefix key is
accepted unvalidated; 3. else `additionalProperties` applies; 4. else the
key is rejected (`none`); a resolver returning Undetermined is a
rejection. -/
def resolveChild (D : NodeType) (K : String) (V : JValue) : Option ResolvedRule :=
  match List.lookup K D.properties with
  | some r => evalRule r V K
  | none =>
      if extMatches ( NodeType.extensionsPrefix D) K then some ResolvedRule.accepted
      else
        match D.additionalProperties with
        | some r => evalRule r V K
        | none => none

/-- Modelled from the spec: the missing-required-keys check of section 4.2
(`checkRequired`, part of the consuming validator, not included in the
sources): resolve `D.required` with the node value and report the keys
absent from the node. -/
def checkRequired (D : NodeType) (V : JValue) : List String :=
  match D.required with
  | none => []
  | some r => (evalRequired r V).filter (fun k => !hasKey V k)

/-- Modelled from the spec: the allow-list check of section 4.2
(`checkAllowed`, part of the consuming validator, not included in the
sources): when `D.allowed` is set, every key of the node value outside the
resolved allow-list and not matching the extension prefix (section 3:
extension keys "do not count against allowed/required completeness checks")
is reported as disallowed, independently of per-key classification. -/
def checkAllowed (D : NodeType) (V : JValue) : List String :=
  match D.allowed with
  | none => []
  | some a =>
      (keysOf V).filter (fun k =>
        !(evalAllowed a V).contains k && !extMatches ( NodeType.extensionsPrefix D) k)

namespace Oas3_core

/-! Descriptors of `src/packages/core/src/types/oas3.ts`, in source order.
Property rules: a string is `.ref`, `null` is `.nullRule`, an inline
constraint object is `.leaf`, an inline `listOf(..)` is `.inlineListOf`,
and a function is `.resolver` with the tag named after its site. -/

/-- oas3.ts `Root` (lines 6-22). -/
def Root : NodeType :=
  { properties :=
      [ ("openapi", .nullRule),
        ("info", .ref "Info"),
        ("servers", .ref "ServerList"),
        ("security", .ref "SecurityRequirementList"),
        ("tags", .ref "TagList"),
        ("externalDocs", .ref "ExternalDocs"),
        ("paths", .ref "Paths"),
        ("components", .ref "Components"),
        ("x-webhooks", .ref "WebhooksMap"),
        ("x-tagGroups", .ref "TagGroups"),
        ("x-ignoredHeaderParameters", .leaf sArrayOfString) ],
    required := some (.fixed ["openapi", "paths", "info"]),
    extensionsPrefix := some "x-" }

/-- oas3.ts `Tag` (lines 24-42). -/
def Tag : NodeType :=
  { properties :=
      [ ("name", .leaf sString),
        ("description", .leaf sString),
        ("externalDocs", .ref "ExternalDocs"),
        ("x-traitTag", .leaf sBoolean),
        ("x-displayName", .leaf sString) ],
    required := some (.fixed ["name"]),
    extensionsPrefix := some "x-" }

/-- oas3.ts `TagGroup` (lines 44-50). -/
def TagGroup : NodeType :=
  { properties :=
      [ ("name", .leaf sString),
        ("tags", .leaf sArrayOfString) ],
    extensionsPrefix := some "x-" }

/-- oas3.ts `ExternalDocs` (lines 52-68). -/
def ExternalDocs : NodeType :=
  { properties :=
      [ ("description", .leaf sString),
        ("url", .leaf sString) ],
    required := some (.fixed ["url"]),
    extensionsPrefix := some "x-" }

/-- oas3.ts `Server` (lines 70-78). -/
def Server : NodeType :=
  { properties :=
      [ ("url", .leaf sString),
        ("description", .leaf sString),
        ("variables", .ref "ServerVariablesMap") ],
    required := some (.fixed ["url"]),
    extensionsPrefix := some "x-" }

/-- oas3.ts `ServerVariable` (lines 80-91). -/
def ServerVariable : NodeType :=
  { properties :=
      [ ("enum", .leaf sArrayOfString),
        ("default", .leaf sString),
        ("description", .leaf sString) ],
    required := some (.fixed ["default"]),
    extensionsPrefix := some "x-" }

/-- oas3.ts `SecurityRequirement` (lines 93-96). -/
def SecurityRequirement : NodeType :=
  { properties := [],
    additionalProperties := some (.leaf sArrayOfString) }

/-- oas3.ts `Info` (lines 98-110). -/
def Info : NodeType :=
  { properties :=
      [ ("title", .leaf sString),
        ("version", .leaf sString),
        ("description", .leaf sString),
        ("termsOfService", .leaf sString),
        ("contact", .ref "Contact"),
        ("license", .ref "License"),
        ("x-logo", .ref "Logo") ],
    required := some (.fixed ["title", "version"]),
    extensionsPrefix := some "x-" }

/-- oas3.ts `Logo` (lines 112-119). -/
def Logo : NodeType :=
  { properties :=
      [ ("url", .leaf sString),
        ("altText", .leaf sString),
        ("backgroundColor", .leaf sString),
        ("href", .leaf sString) ] }

/-- oas3.ts `Contact` (lines 121-128). -/
def Contact : NodeType :=
  { properties :=
      [ ("name", .leaf sString),
        ("url", .leaf sString),
        ("email", .leaf sString) ],
    extensionsPrefix := some "x-" }

/-- oas3.ts `License` (lines 130-137). -/
def License : NodeType :=
  { properties :=
      [ ("name", .leaf sString),
        ("url", .leaf sString) ],
    required := some (.fixed ["name"]),
    extensionsPrefix := some "x-" }

/-- oas3.ts `Paths` (lines 139-145): empty `properties`, resolver
additional-properties rule. -/
def Paths : NodeType :=
  { properties := [],
    additionalProperties := some (.resolver .pathsAdditional) }

/-- oas3.ts `WebhooksMap` (lines 147-150). -/
def WebhooksMap : NodeType :=
  { properties := [],
    additionalProperties := some (.resolver .webhooksAdditional) }

/-- oas3.ts `PathItem` (lines 152-186). -/
def PathItem : NodeType :=
  { properties :=
      [ ("$ref", .leaf sString),
        ("servers", .ref "ServerList"),
        ("parameters", .ref "ParameterList"),
        ("summary", .leaf sString),
        ("description", .leaf sString),
        ("get", .ref "Operation"),
        ("put", .ref "Operation"),
        ("post", .ref "Operation"),
        ("delete", .ref "Operation"),
        ("options", .ref "Operation"),
        ("head", .ref "Operation"),
        ("patch", .ref "Operation"),
        ("trace", .ref "Operation") ],
    extensionsPrefix := some "x-" }

/-- oas3.ts `Parameter` (lines 188-244). -/
def Parameter : NodeType :=
  { properties :=
      [ ("name", .leaf sString),
        ("in", .leaf (sEnum ["query", "header", "path", "cookie"])),
        ("description", .leaf sString),
        ("required", .leaf sBoolean),
        ("deprecated", .leaf sBoolean),
        ("allowEmptyValue", .leaf sBoolean),
        ("style", .leaf (sEnum ["form", "simple", "label", "matrix",
          "spaceDelimited", "pipeDelimited", "deepObject"])),
        ("explode", .leaf sBoolean),
        ("allowReserved", .leaf sBoolean),
        ("schema", .ref "Schema"),
        ("example", .leaf sExample),
        ("examples", .ref "ExamplesMap"),
        ("content", .ref "MediaTypesMap") ],
    required := some (.fixed ["name", "in"]),
    requiredOneOf := some ["schema", "content"],
    extensionsPrefix := some "x-" }

/-- oas3.ts `Operation` (lines 246-291). -/
def Operation : NodeType :=
  { properties :=
      [ ("tags", .leaf sArrayOfString),
        ("summary", .leaf sString),
        ("description", .leaf sString),
        ("externalDocs", .ref "ExternalDocs"),
        ("operationId", .leaf sString),
        ("parameters", .ref "ParameterList"),
        ("security", .ref "SecurityRequirementList"),
        ("servers", .ref "ServerList"),
        ("requestBody", .ref "RequestBody"),
        ("responses", .ref "Responses"),
        ("deprecated", .leaf sBoolean),
        ("callbacks", .ref "CallbacksMap"),
        ("x-codeSamples", .ref "XCodeSampleList"),
        ("x-code-samples", .ref "XCodeSampleList"),
        ("x-hideTryItPanel", .leaf sBoolean) ],
    required := some (.fixed ["responses"]),
    extensionsPrefix := some "x-" }

/-- oas3.ts `XCodeSample` (lines 293-299). -/
def XCodeSample : NodeType :=
  { properties :=
      [ ("lang", .leaf sString),
        ("label", .leaf sString),
        ("source", .leaf sString) ] }

/-- oas3.ts `RequestBody` (lines 301-311). -/
def RequestBody : NodeType :=
  { properties :=
      [ ("description", .leaf sString),
        ("required", .leaf sBoolean),
        ("content", .ref "MediaTypesMap") ],
    required := some (.fixed ["content"]),
    extensionsPrefix := some "x-" }

/-- oas3.ts `MediaTypesMap` (lines 313-316). -/
def MediaTypesMap : NodeType :=
  { properties := [],
    additionalProperties := some (.ref "MediaType") }

/-- oas3.ts `MediaType` (lines 318-326). -/
def MediaType : NodeType :=
  { properties :=
      [ ("schema", .ref "Schema"),
        ("example", .leaf sExample),
        ("examples", .ref "ExamplesMap"),
        ("encoding", .ref "EncodingMap") ],
    extensionsPrefix := some "x-" }

/-- oas3.ts `Example` (lines 328-336). -/
def Example : NodeType :=
  { properties :=
      [ ("value", .leaf sNonResolvable),
        ("summary", .leaf sString),
        ("description", .leaf sString),
        ("externalValue", .leaf sString) ],
    extensionsPrefix := some "x-" }

/-- oas3.ts `Encoding` (lines 338-349). -/
def Encoding : NodeType :=
  { properties :=
      [ ("contentType", .leaf sString),
        ("headers", .ref "HeadersMap"),
        ("style", .leaf (sEnum ["form", "simple", "label", "matrix",
          "spaceDelimited", "pipeDelimited", "deepObject"])),
        ("explode", .leaf sBoolean),
        ("allowReserved", .leaf sBoolean) ],
    extensionsPrefix := some "x-" }

/-- oas3.ts `EnumDescriptions` (lines 351-354). -/
def EnumDescriptions : NodeType :=
  { properties := [],
    additionalProperties := some (.leaf sString) }

/-- oas3.ts `Header` (lines 356-374). -/
def Header : NodeType :=
  { properties :=
      [ ("description", .leaf sString),
        ("required", .leaf sBoolean),
        ("deprecated", .leaf sBoolean),
        ("allowEmptyValue", .leaf sBoolean),
        ("style", .leaf (sEnum ["form", "simple", "label", "matrix",
          "spaceDelimited", "pipeDelimited", "deepObject"])),
        ("explode", .leaf sBoolean),
        ("allowReserved", .leaf sBoolean),
        ("schema", .ref "Schema"),
        ("example", .leaf sExample),
        ("examples", .ref "ExamplesMap"),
        ("content", .ref "MediaTypesMap") ],
    requiredOneOf := some ["schema", "content"],
    extensionsPrefix := some "x-" }

/-- oas3.ts `Responses` (lines 376-381): explicit `default` entry plus the
response-code-regexp resolver as additional-properties rule. -/
def Responses : NodeType :=
  { properties := [ ("default", .ref "Response") ],
    additionalProperties := some (.resolver .responsesAdditional) }

/-- oas3.ts `Response` (lines 383-393). -/
def Response : NodeType :=
  { properties :=
      [ ("description", .leaf sString),
        ("headers", .ref "HeadersMap"),
        ("content", .ref "MediaTypesMap"),
        ("links", .ref "LinksMap"),
        ("x-summary", .leaf sString) ],
    required := some (.fixed ["description"]),
    extensionsPrefix := some "x-" }

/-- oas3.ts `Link` (lines 395-405). -/
def Link : NodeType :=
  { properties :=
      [ ("operationRef", .leaf sString),
        ("operationId", .leaf sString),
        ("parameters", .nullRule),
        ("requestBody", .nullRule),
        ("description", .leaf sString),
        ("server", .ref "Server") ],
    extensionsPrefix := some "x-" }

/-- oas3.ts `Schema` (lines 408-464). -/
def Schema : NodeType :=
  { properties :=
      [ ("externalDocs", .ref "ExternalDocs"),
        ("discriminator", .ref "Discriminator"),
        ("title", .leaf sString),
        ("multipleOf", .leaf sNumber0),
        ("maximum", .leaf sNumber),
        ("minimum", .leaf sNumber),
        ("exclusiveMaximum", .leaf sBoolean),
        ("exclusiveMinimum", .leaf sBoolean),
        ("maxLength", .leaf sInteger0),
        ("minLength", .leaf sInteger0),
        ("pattern", .leaf sString),
        ("maxItems", .leaf sInteger0),
        ("minItems", .leaf sInteger0),
        ("uniqueItems", .leaf sBoolean),
        ("maxProperties", .leaf sInteger0),
        ("minProperties", .leaf sInteger0),
        ("required", .leaf sArrayOfString),
        ("enum", .leaf sArray),
        ("type", .leaf (sEnum ["object", "array", "string", "number",
          "integer", "boolean"])),
        ("allOf", .inlineListOf "Schema"),
        ("anyOf", .inlineListOf "Schema"),
        ("oneOf", .inlineListOf "Schema"),
        ("not", .ref "Schema"),
        ("properties", .ref "SchemaProperties"),
        ("items", .resolver .schemaItems),
        ("additionalProperties", .resolver .schemaAdditionalProps),
        ("description", .leaf sString),
        ("format", .leaf sString),
        ("default", .nullRule),
        ("nullable", .leaf sBoolean),
        ("readOnly", .leaf sBoolean),
        ("writeOnly", .leaf sBoolean),
        ("xml", .ref "Xml"),
        ("example", .leaf sExample),
        ("deprecated", .leaf sBoolean),
        ("x-tags", .leaf sArrayOfString),
        ("x-additionalPropertiesName", .leaf sString),
        ("x-explicitMappingOnly", .leaf sBoolean) ],
    extensionsPrefix := some "x-" }

/-- oas3.ts `Xml` (lines 466-475). -/
def Xml : NodeType :=
  { properties :=
      [ ("name", .leaf sString),
        ("namespace", .leaf sString),
        ("prefix", .leaf sString),
        ("attribute", .leaf sBoolean),
        ("wrapped", .leaf sBoolean) ],
    extensionsPrefix := some "x-" }

/-- oas3.ts `SchemaProperties` (lines 477-480). -/
def SchemaProperties : NodeType :=
  { properties := [],
    additionalProperties := some (.ref "Schema") }

/-- oas3.ts `DiscriminatorMapping` (lines 482-491): empty `properties`, the
reference-classifier resolver as additional-properties rule. -/
def DiscriminatorMapping : NodeType :=
  { properties := [],
    additionalProperties := some (.resolver .discriminatorMappingAdditional) }

/-- oas3.ts `Discriminator` (lines 493-500). -/
def Discriminator : NodeType :=
  { properties :=
      [ ("propertyName", .leaf sString),
        ("mapping", .ref "DiscriminatorMapping") ],
    required := some (.fixed ["propertyName"]),
    extensionsPrefix := some "x-" }

/-- oas3.ts `Components` (lines 502-515). -/
def Components : NodeType :=
  { properties :=
      [ ("parameters", .ref "NamedParameters"),
        ("schemas", .ref "NamedSchemas"),
        ("responses", .ref "NamedResponses"),
        ("examples", .ref "NamedExamples"),
        ("requestBodies", .ref "NamedRequestBodies"),
        ("headers", .ref "NamedHeaders"),
        ("securitySchemes", .ref "NamedSecuritySchemes"),
        ("links", .ref "NamedLinks"),
        ("callbacks", .ref "NamedCallbacks") ],
    extensionsPrefix := some "x-" }

/-- oas3.ts `ImplicitFlow` (lines 517-525). -/
def ImplicitFlow : NodeType :=
  { properties :=
      [ ("refreshUrl", .leaf sString),
        ("scopes", .leaf sScopes),
        ("authorizationUrl", .leaf sString) ],
    required := some (.fixed ["authorizationUrl", "scopes"]),
    extensionsPrefix := some "x-" }

/-- oas3.ts `PasswordFlow` (lines 527-535). -/
def PasswordFlow : NodeType :=
  { properties :=
      [ ("refreshUrl", .leaf sString),
        ("scopes", .leaf sScopes),
        ("tokenUrl", .leaf sString) ],
    required := some (.fixed ["tokenUrl", "scopes"]),
    extensionsPrefix := some "x-" }

/-- oas3.ts `ClientCredentials` (lines 537-545). -/
def ClientCredentials : NodeType :=
  { properties :=
      [ ("refreshUrl", .leaf sString),
        ("scopes", .leaf sScopes),
        ("tokenUrl", .leaf sString) ],
    required := some (.fixed ["tokenUrl", "scopes"]),
    extensionsPrefix := some "x-" }

/-- oas3.ts `AuthorizationCode` (lines 547-563). -/
def AuthorizationCode : NodeType :=
  { properties :=
      [ ("refreshUrl", .leaf sString),
        ("authorizationUrl", .leaf sString),
        ("scopes", .leaf sScopes),
        ("tokenUrl", .leaf sString),
        ("x-usePkce", .resolver .xUsePkceProp) ],
    required := some (.fixed ["authorizationUrl", "tokenUrl", "scopes"]),
    extensionsPrefix := some "x-" }

/-- oas3.ts `OAuth2Flows` (lines 565-573). -/
def OAuth2Flows : NodeType :=
  { properties :=
      [ ("implicit", .ref "ImplicitFlow"),
        ("password", .ref "PasswordFlow"),
        ("clientCredentials", .ref "ClientCredentials"),
        ("authorizationCode", .ref "AuthorizationCode") ],
    extensionsPrefix := some "x-" }

/-- oas3.ts `SecurityScheme` (lines 575-616), with the conditional
`required` (lines 587-600) and `allowed` (lines 601-614) functions. -/
def SecurityScheme : NodeType :=
  { properties :=
      [ ("type", .leaf (sEnum ["apiKey", "http", "oauth2", "openIdConnect"])),
        ("description", .leaf sString),
        ("name", .leaf sString),
        ("in", .leaf (sStrEnum ["query", "header", "cookie"])),
        ("scheme", .leaf sString),
        ("bearerFormat", .leaf sString),
        ("flows", .ref "OAuth2Flows"),
        ("openIdConnectUrl", .leaf sString),
        ("x-defaultClientId", .leaf sString) ],
    required := some .oas3SecuritySchemeReq,
    allowed := some .oas3SecuritySchemeAllow,
    extensionsPrefix := some "x-" }

/-- oas3.ts `XUsePkce` (lines 618-623). -/
def XUsePkce : NodeType :=
  { properties :=
      [ ("disableManualConfiguration", .leaf sBoolean),
        ("hideClientSecretInput", .leaf sBoolean) ] }

/-- oas3.ts `Oas3Types` export (lines 625-693), in source order, as a name
to descriptor association list (the registry data for the OpenAPI 3
dialect). -/
def Oas3Types : List (String × NodeType) :=
  [ ("Root", Root),
    ("Tag", Tag),
    ("TagList", listOf "Tag"),
    ("TagGroups", listOf "TagGroup"),
    ("TagGroup", TagGroup),
    ("ExternalDocs", ExternalDocs),
    ("Server", Server),
    ("ServerList", listOf "Server"),
    ("ServerVariable", ServerVariable),
    ("ServerVariablesMap", mapOf "ServerVariable"),
    ("SecurityRequirement", SecurityRequirement),
    ("SecurityRequirementList", listOf "SecurityRequirement"),
    ("Info", Info),
    ("Contact", Contact),
    ("License", License),
    ("Paths", Paths),
    ("PathItem", PathItem),
    ("Parameter", Parameter),
    ("ParameterList", listOf "Parameter"),
    ("Operation", Operation),
    ("Callback", mapOf "PathItem"),
    ("CallbacksMap", mapOf "Callback"),
    ("RequestBody", RequestBody),
    ("MediaTypesMap", MediaTypesMap),
    ("MediaType", MediaType),
    ("Example", Example),
    ("ExamplesMap", mapOf "Example"),
    ("Encoding", Encoding),
    ("EncodingMap", mapOf "Encoding"),
    ("EnumDescriptions", EnumDescriptions),
    ("Header", Header),
    ("HeadersMap", mapOf "Header"),
    ("Responses", Responses),
    ("Response", Response),
    ("Link", Link),
    ("Logo", Logo),
    ("Schema", Schema),
    ("Xml", Xml),
    ("SchemaProperties", SchemaProperties),
    ("DiscriminatorMapping", DiscriminatorMapping),
    ("Discriminator", Discriminator),
    ("Components", Components),
    ("LinksMap", mapOf "Link"),
    ("NamedSchemas", mapOf "Schema"),
    ("NamedResponses", mapOf "Response"),
    ("NamedParameters", mapOf "Parameter"),
    ("NamedExamples", mapOf "Example"),
    ("NamedRequestBodies", mapOf "RequestBody"),
    ("NamedHeaders", mapOf "Header"),
    ("NamedSecuritySchemes", mapOf "SecurityScheme"),
    ("NamedLinks", mapOf "Link"),
    ("NamedCallbacks", mapOf "Callback"),
    ("ImplicitFlow", ImplicitFlow),
    ("PasswordFlow", PasswordFlow),
    ("ClientCredentials", ClientCredentials),
    ("AuthorizationCode", AuthorizationCode),
    ("OAuth2Flows", OAuth2Flows),
    ("SecurityScheme", SecurityScheme),
    ("XCodeSample", XCodeSample),
    ("XCodeSampleList", listOf "XCodeSample"),
    ("XUsePkce", XUsePkce),
    ("WebhooksMap", WebhooksMap) ]

end Oas3_core

namespace Oas3_p0

/-! Descriptors of `src/unnamed/part_000`, in source order; semantically this file repeats oas3.ts with different descriptive text.
Property rules: a string is `.ref`, `null` is `.nullRule`, an inline
constraint object is `.leaf`, an inline `listOf(..)` is `.inlineListOf`,
and a function is `.resolver` with the tag named after its site. -/

/-- part_000 `Root` (lines 6-25). -/
def Root : NodeType :=
  { properties :=
      [ ("openapi", .nullRule),
        ("info", .ref "Info"),
        ("servers", .ref "ServerList"),
        ("security", .ref "SecurityRequirementList"),
        ("tags", .ref "TagList"),
        ("externalDocs", .ref "ExternalDocs"),
        ("paths", .ref "Paths"),
        ("components", .ref "Components"),
        ("x-webhooks", .ref "WebhooksMap"),
        ("x-tagGroups", .ref "TagGroups"),
        ("x-ignoredHeaderParameters", .leaf sArrayOfString) ],
    required := some (.fixed ["openapi", "paths", "info"]),
    extensionsPrefix := some "x-" }

/-- part_000 `Tag` (lines 27-45). -/
def Tag : NodeType :=
  { properties :=
      [ ("name", .leaf sString),
        ("description", .leaf sString),
        ("externalDocs", .ref "ExternalDocs"),
        ("x-traitTag", .leaf sBoolean),
        ("x-displayName", .leaf sString) ],
    required := some (.fixed ["name"]),
    extensionsPrefix := some "x-" }

/-- part_000 `TagGroup` (lines 47-53). -/
def TagGroup : NodeType :=
  { properties :=
      [ ("name", .leaf sString),
        ("tags", .leaf sArrayOfString) ],
    extensionsPrefix := some "x-" }

/-- part_000 `ExternalDocs` (lines 55-71). -/
def ExternalDocs : NodeType :=
  { properties :=
      [ ("description", .leaf sString),
        ("url", .leaf sString) ],
    required := some (.fixed ["url"]),
    extensionsPrefix := some "x-" }

/-- part_000 `Server` (lines 73-89). -/
def Server : NodeType :=
  { properties :=
      [ ("url", .leaf sString),
        ("description", .leaf sString),
        ("variables", .ref "ServerVariablesMap") ],
    required := some (.fixed ["url"]),
    extensionsPrefix := some "x-" }

/-- part_000 `ServerVariable` (lines 91-114). -/
def ServerVariable : NodeType :=
  { properties :=
      [ ("enum", .leaf sArrayOfString),
        ("default", .leaf sString),
        ("description", .leaf sString) ],
    required := some (.fixed ["default"]),
    extensionsPrefix := some "x-" }

/-- part_000 `SecurityRequirement` (lines 116-122). -/
def SecurityRequirement : NodeType :=
  { properties := [],
    additionalProperties := some (.leaf sArrayOfString) }

/-- part_000 `Info` (lines 124-152). -/
def Info : NodeType :=
  { properties :=
      [ ("title", .leaf sString),
        ("version", .leaf sString),
        ("description", .leaf sString),
        ("termsOfService", .leaf sString),
        ("contact", .ref "Contact"),
        ("license", .ref "License"),
        ("x-logo", .ref "Logo") ],
    required := some (.fixed ["title", "version"]),
    extensionsPrefix := some "x-" }

/-- part_000 `Logo` (lines 154-165). -/
def Logo : NodeType :=
  { properties :=
      [ ("url", .leaf sString),
        ("altText", .leaf sString),
        ("backgroundColor", .leaf sString),
        ("href", .leaf sString) ] }

/-- part_000 `Contact` (lines 167-185). -/
def Contact : NodeType :=
  { properties :=
      [ ("name", .leaf sString),
        ("url", .leaf sString),
        ("email", .leaf sString) ],
    extensionsPrefix := some "x-" }

/-- part_000 `License` (lines 187-202). -/
def License : NodeType :=
  { properties :=
      [ ("name", .leaf sString),
        ("url", .leaf sString) ],
    required := some (.fixed ["name"]),
    extensionsPrefix := some "x-" }

/-- part_000 `Paths` (lines 204-212): empty `properties`, resolver
additional-properties rule. -/
def Paths : NodeType :=
  { properties := [],
    additionalProperties := some (.resolver .pathsAdditional) }

/-- part_000 `WebhooksMap` (lines 214-217). -/
def WebhooksMap : NodeType :=
  { properties := [],
    additionalProperties := some (.resolver .webhooksAdditional) }

/-- part_000 `PathItem` (lines 219-253). -/
def PathItem : NodeType :=
  { properties :=
      [ ("$ref", .leaf sString),
        ("servers", .ref "ServerList"),
        ("parameters", .ref "ParameterList"),
        ("summary", .leaf sString),
        ("description", .leaf sString),
        ("get", .ref "Operation"),
        ("put", .ref "Operation"),
        ("post", .ref "Operation"),
        ("delete", .ref "Operation"),
        ("options", .ref "Operation"),
        ("head", .ref "Operation"),
        ("patch", .ref "Operation"),
        ("trace", .ref "Operation") ],
    extensionsPrefix := some "x-" }

/-- part_000 `Parameter` (lines 255-310). -/
def Parameter : NodeType :=
  { properties :=
      [ ("name", .leaf sString),
        ("in", .leaf (sEnum ["query", "header", "path", "cookie"])),
        ("description", .leaf sString),
        ("required", .leaf sBoolean),
        ("deprecated", .leaf sBoolean),
        ("allowEmptyValue", .leaf sBoolean),
        ("style", .leaf (sEnum ["form", "simple", "label", "matrix",
          "spaceDelimited", "pipeDelimited", "deepObject"])),
        ("explode", .leaf sBoolean),
        ("allowReserved", .leaf sBoolean),
        ("schema", .ref "Schema"),
        ("example", .leaf sExample),
        ("examples", .ref "ExamplesMap"),
        ("content", .ref "MediaTypesMap") ],
    required := some (.fixed ["name", "in"]),
    requiredOneOf := some ["schema", "content"],
    extensionsPrefix := some "x-" }

/-- part_000 `Operation` (lines 312-355). -/
def Operation : NodeType :=
  { properties :=
      [ ("tags", .leaf sArrayOfString),
        ("summary", .leaf sString),
        ("description", .leaf sString),
        ("externalDocs", .ref "ExternalDocs"),
        ("operationId", .leaf sString),
        ("parameters", .ref "ParameterList"),
        ("security", .ref "SecurityRequirementList"),
        ("servers", .ref "ServerList"),
        ("requestBody", .ref "RequestBody"),
        ("responses", .ref "Responses"),
        ("deprecated", .leaf sBoolean),
        ("callbacks", .ref "CallbacksMap"),
        ("x-codeSamples", .ref "XCodeSampleList"),
        ("x-code-samples", .ref "XCodeSampleList"),
        ("x-hideTryItPanel", .leaf sBoolean) ],
    required := some (.fixed ["responses"]),
    extensionsPrefix := some "x-" }

/-- part_000 `XCodeSample` (lines 357-363). -/
def XCodeSample : NodeType :=
  { properties :=
      [ ("lang", .leaf sString),
        ("label", .leaf sString),
        ("source", .leaf sString) ] }

/-- part_000 `RequestBody` (lines 365-382). -/
def RequestBody : NodeType :=
  { properties :=
      [ ("description", .leaf sString),
        ("required", .leaf sBoolean),
        ("content", .ref "MediaTypesMap") ],
    required := some (.fixed ["content"]),
    extensionsPrefix := some "x-" }

/-- part_000 `MediaTypesMap` (lines 384-387). -/
def MediaTypesMap : NodeType :=
  { properties := [],
    additionalProperties := some (.ref "MediaType") }

/-- part_000 `MediaType` (lines 389-399). -/
def MediaType : NodeType :=
  { properties :=
      [ ("schema", .ref "Schema"),
        ("example", .leaf sExample),
        ("examples", .ref "ExamplesMap"),
        ("encoding", .ref "EncodingMap") ],
    extensionsPrefix := some "x-" }

/-- part_000 `Example` (lines 401-412). -/
def Example : NodeType :=
  { properties :=
      [ ("value", .leaf sNonResolvable),
        ("summary", .leaf sString),
        ("description", .leaf sString),
        ("externalValue", .leaf sString) ],
    extensionsPrefix := some "x-" }

/-- part_000 `Encoding` (lines 414-425). -/
def Encoding : NodeType :=
  { properties :=
      [ ("contentType", .leaf sString),
        ("headers", .ref "HeadersMap"),
        ("style", .leaf (sEnum ["form", "simple", "label", "matrix",
          "spaceDelimited", "pipeDelimited", "deepObject"])),
        ("explode", .leaf sBoolean),
        ("allowReserved", .leaf sBoolean) ],
    extensionsPrefix := some "x-" }

/-- part_000 `EnumDescriptions` (lines 427-430). -/
def EnumDescriptions : NodeType :=
  { properties := [],
    additionalProperties := some (.leaf sString) }

/-- part_000 `Header` (lines 432-450). -/
def Header : NodeType :=
  { properties :=
      [ ("description", .leaf sString),
        ("required", .leaf sBoolean),
        ("deprecated", .leaf sBoolean),
        ("allowEmptyValue", .leaf sBoolean),
        ("style", .leaf (sEnum ["form", "simple", "label", "matrix",
          "spaceDelimited", "pipeDelimited", "deepObject"])),
        ("explode", .leaf sBoolean),
        ("allowReserved", .leaf sBoolean),
        ("schema", .ref "Schema"),
        ("example", .leaf sExample),
        ("examples", .ref "ExamplesMap"),
        ("content", .ref "MediaTypesMap") ],
    requiredOneOf := some ["schema", "content"],
    extensionsPrefix := some "x-" }

/-- part_000 `Responses` (lines 452-457): explicit `default` entry plus the
response-code-regexp resolver as additional-properties rule. -/
def Responses : NodeType :=
  { properties := [ ("default", .ref "Response") ],
    additionalProperties := some (.resolver .responsesAdditional) }

/-- part_000 `Response` (lines 459-469). -/
def Response : NodeType :=
  { properties :=
      [ ("description", .leaf sString),
        ("headers", .ref "HeadersMap"),
        ("content", .ref "MediaTypesMap"),
        ("links", .ref "LinksMap"),
        ("x-summary", .leaf sString) ],
    required := some (.fixed ["description"]),
    extensionsPrefix := some "x-" }

/-- part_000 `Link` (lines 471-481). -/
def Link : NodeType :=
  { properties :=
      [ ("operationRef", .leaf sString),
        ("operationId", .leaf sString),
        ("parameters", .nullRule),
        ("requestBody", .nullRule),
        ("description", .leaf sString),
        ("server", .ref "Server") ],
    extensionsPrefix := some "x-" }

/-- part_000 `Schema` (lines 484-542). -/
def Schema : NodeType :=
  { properties :=
      [ ("externalDocs", .ref "ExternalDocs"),
        ("discriminator", .ref "Discriminator"),
        ("title", .leaf sString),
        ("multipleOf", .leaf sNumber0),
        ("maximum", .leaf sNumber),
        ("minimum", .leaf sNumber),
        ("exclusiveMaximum", .leaf sBoolean),
        ("exclusiveMinimum", .leaf sBoolean),
        ("maxLength", .leaf sInteger0),
        ("minLength", .leaf sInteger0),
        ("pattern", .leaf sString),
        ("maxItems", .leaf sInteger0),
        ("minItems", .leaf sInteger0),
        ("uniqueItems", .leaf sBoolean),
        ("maxProperties", .leaf sInteger0),
        ("minProperties", .leaf sInteger0),
        ("required", .leaf sArrayOfString),
        ("enum", .leaf sArray),
        ("type", .leaf (sEnum ["object", "array", "string", "number",
          "integer", "boolean"])),
        ("allOf", .inlineListOf "Schema"),
        ("anyOf", .inlineListOf "Schema"),
        ("oneOf", .inlineListOf "Schema"),
        ("not", .ref "Schema"),
        ("properties", .ref "SchemaProperties"),
        ("items", .resolver .schemaItems),
        ("additionalProperties", .resolver .schemaAdditionalProps),
        ("description", .leaf sString),
        ("format", .leaf sString),
        ("default", .nullRule),
        ("nullable", .leaf sBoolean),
        ("readOnly", .leaf sBoolean),
        ("writeOnly", .leaf sBoolean),
        ("xml", .ref "Xml"),
        ("example", .leaf sExample),
        ("deprecated", .leaf sBoolean),
        ("x-tags", .leaf sArrayOfString),
        ("x-additionalPropertiesName", .leaf sString),
        ("x-explicitMappingOnly", .leaf sBoolean) ],
    extensionsPrefix := some "x-" }

/-- part_000 `Xml` (lines 544-553). -/
def Xml : NodeType :=
  { properties :=
      [ ("name", .leaf sString),
        ("namespace", .leaf sString),
        ("prefix", .leaf sString),
        ("attribute", .leaf sBoolean),
        ("wrapped", .leaf sBoolean) ],
    extensionsPrefix := some "x-" }

/-- part_000 `SchemaProperties` (lines 555-558). -/
def SchemaProperties : NodeType :=
  { properties := [],
    additionalProperties := some (.ref "Schema") }

/-- part_000 `DiscriminatorMapping` (lines 560-569): empty `properties`, the
reference-classifier resolver as additional-properties rule. -/
def DiscriminatorMapping : NodeType :=
  { properties := [],
    additionalProperties := some (.resolver .discriminatorMappingAdditional) }

/-- part_000 `Discriminator` (lines 571-578). -/
def Discriminator : NodeType :=
  { properties :=
      [ ("propertyName", .leaf sString),
        ("mapping", .ref "DiscriminatorMapping") ],
    required := some (.fixed ["propertyName"]),
    extensionsPrefix := some "x-" }

/-- part_000 `Components` (lines 580-593). -/
def Components : NodeType :=
  { properties :=
      [ ("parameters", .ref "NamedParameters"),
        ("schemas", .ref "NamedSchemas"),
        ("responses", .ref "NamedResponses"),
        ("examples", .ref "NamedExamples"),
        ("requestBodies", .ref "NamedRequestBodies"),
        ("headers", .ref "NamedHeaders"),
        ("securitySchemes", .ref "NamedSecuritySchemes"),
        ("links", .ref "NamedLinks"),
        ("callbacks", .ref "NamedCallbacks") ],
    extensionsPrefix := some "x-" }

/-- part_000 `ImplicitFlow` (lines 595-603). -/
def ImplicitFlow : NodeType :=
  { properties :=
      [ ("refreshUrl", .leaf sString),
        ("scopes", .leaf sScopes),
        ("authorizationUrl", .leaf sString) ],
    required := some (.fixed ["authorizationUrl", "scopes"]),
    extensionsPrefix := some "x-" }

/-- part_000 `PasswordFlow` (lines 605-613). -/
def PasswordFlow : NodeType :=
  { properties :=
      [ ("refreshUrl", .leaf sString),
        ("scopes", .leaf sScopes),
        ("tokenUrl", .leaf sString) ],
    required := some (.fixed ["tokenUrl", "scopes"]),
    extensionsPrefix := some "x-" }

/-- part_000 `ClientCredentials` (lines 615-623). -/
def ClientCredentials : NodeType :=
  { properties :=
      [ ("refreshUrl", .leaf sString),
        ("scopes", .leaf sScopes),
        ("tokenUrl", .leaf sString) ],
    required := some (.fixed ["tokenUrl", "scopes"]),
    extensionsPrefix := some "x-" }

/-- part_000 `AuthorizationCode` (lines 625-641). -/
def AuthorizationCode : NodeType :=
  { properties :=
      [ ("refreshUrl", .leaf sString),
        ("authorizationUrl", .leaf sString),
        ("scopes", .leaf sScopes),
        ("tokenUrl", .leaf sString),
        ("x-usePkce", .resolver .xUsePkceProp) ],
    required := some (.fixed ["authorizationUrl", "tokenUrl", "scopes"]),
    extensionsPrefix := some "x-" }

/-- part_000 `OAuth2Flows` (lines 643-651). -/
def OAuth2Flows : NodeType :=
  { properties :=
      [ ("implicit", .ref "ImplicitFlow"),
        ("password", .ref "PasswordFlow"),
        ("clientCredentials", .ref "ClientCredentials"),
        ("authorizationCode", .ref "AuthorizationCode") ],
    extensionsPrefix := some "x-" }

/-- part_000 `SecurityScheme` (lines 653-694), with the conditional
`required` (lines 665-678) and `allowed` (lines 679-692) functions. -/
def SecurityScheme : NodeType :=
  { properties :=
      [ ("type", .leaf (sEnum ["apiKey", "http", "oauth2", "openIdConnect"])),
        ("description", .leaf sString),
        ("name", .leaf sString),
        ("in", .leaf (sStrEnum ["query", "header", "cookie"])),
        ("scheme", .leaf sString),
        ("bearerFormat", .leaf sString),
        ("flows", .ref "OAuth2Flows"),
        ("openIdConnectUrl", .leaf sString),
        ("x-defaultClientId", .leaf sString) ],
    required := some .oas3SecuritySchemeReq,
    allowed := some .oas3SecuritySchemeAllow,
    extensionsPrefix := some "x-" }

/-- part_000 `XUsePkce` (lines 696-701). -/
def XUsePkce : NodeType :=
  { properties :=
      [ ("disableManualConfiguration", .leaf sBoolean),
        ("hideClientSecretInput", .leaf sBoolean) ] }

/-- part_000 `Oas3Types` export (lines 703-777), in source order, as a name
to descriptor association list (the registry data for the OpenAPI 3
dialect). -/
def Oas3Types : List (String × NodeType) :=
  [ ("Root", Root),
    ("Tag", Tag),
    ("TagList", listOf "Tag"),
    ("TagGroups", listOf "TagGroup"),
    ("TagGroup", TagGroup),
    ("ExternalDocs", ExternalDocs),
    ("Server", Server),
    ("ServerList", listOf "Server"),
    ("ServerVariable", ServerVariable),
    ("ServerVariablesMap", mapOf "ServerVariable"),
    ("SecurityRequirement", SecurityRequirement),
    ("SecurityRequirementList", listOf "SecurityRequirement"),
    ("Info", Info),
    ("Contact", Contact),
    ("License", License),
    ("Paths", Paths),
    ("PathItem", PathItem),
    ("Parameter", Parameter),
    ("ParameterList", listOf "Parameter"),
    ("Operation", Operation),
    ("Callback", mapOf "PathItem"),
    ("CallbacksMap", mapOf "Callback"),
    ("RequestBody", RequestBody),
    ("MediaTypesMap", MediaTypesMap),
    ("MediaType", MediaType),
    ("Example", Example),
    ("ExamplesMap", mapOf "Example"),
    ("Encoding", Encoding),
    ("EncodingMap", mapOf "Encoding"),
    ("EnumDescriptions", EnumDescriptions),
    ("Header", Header),
    ("HeadersMap", mapOf "Header"),
    ("Responses", Responses),
    ("Response", Response),
    ("Link", Link),
    ("Logo", Logo),
    ("Schema", Schema),
    ("Xml", Xml),
    ("SchemaProperties", SchemaProperties),
    ("DiscriminatorMapping", DiscriminatorMapping),
    ("Discriminator", Discriminator),
    ("Components", Components),
    ("LinksMap", mapOf "Link"),
    ("NamedSchemas", mapOf "Schema"),
    ("NamedResponses", mapOf "Response"),
    ("NamedParameters", mapOf "Parameter"),
    ("NamedExamples", mapOf "Example"),
    ("NamedRequestBodies", mapOf "RequestBody"),
    ("NamedHeaders", mapOf "Header"),
    ("NamedSecuritySchemes", mapOf "SecurityScheme"),
    ("NamedLinks", mapOf "Link"),
    ("NamedCallbacks", mapOf "Callback"),
    ("ImplicitFlow", ImplicitFlow),
    ("PasswordFlow", PasswordFlow),
    ("ClientCredentials", ClientCredentials),
    ("AuthorizationCode", AuthorizationCode),
    ("OAuth2Flows", OAuth2Flows),
    ("SecurityScheme", SecurityScheme),
    ("XCodeSample", XCodeSample),
    ("XCodeSampleList", listOf "XCodeSample"),
    ("XUsePkce", XUsePkce),
    ("WebhooksMap", WebhooksMap) ]

end Oas3_p0

namespace Async2

/-! Descriptors of `src/packages/core/src/types/asyncapi2.ts` used by the
claims.  The bindings descriptors are defined with empty `properties` and
then patched by the module-level statements
`XxxBindings.properties.protocol = XxxProtocolBinding`; the `...0`
definitions below are the initial literals and the patch lists record the
assignments in their source order.  A patched value is the descriptor object of the
protocol itself, identified by its module-level constant name. -/

/-- asyncapi2.ts `ChannelBindings` initial literal (lines 58-88): empty
`properties`, the constant `allowed()` protocol list, static
`{ type: object }` additional-properties rule. -/
def ChannelBindings0 : NodeType :=
  { properties := [],
    allowed := some .asyncApi2BindingsAllow,
    additionalProperties := some (.leaf sObject) }

/-- asyncapi2.ts `ServerBindings` initial literal (lines 133-163). -/
def ServerBindings0 : NodeType :=
  { properties := [],
    allowed := some .asyncApi2BindingsAllow,
    additionalProperties := some (.leaf sObject) }

/-- asyncapi2.ts `MessageBindings` initial literal (lines 301-328). -/
def MessageBindings0 : NodeType :=
  { properties := [],
    allowed := some .asyncApi2BindingsAllow,
    additionalProperties := some (.leaf sObject) }

/-- asyncapi2.ts `OperationBindings` initial literal (lines 330-357). -/
def OperationBindings0 : NodeType :=
  { properties := [],
    allowed := some .asyncApi2BindingsAllow,
    additionalProperties := some (.leaf sObject) }

/-- The `ChannelBindings.properties.X = ...` patch statements, in source
order (asyncapi2.ts lines 551, 588, 624, 659, 683, 721, 746, 787, 808, 836,
865, 906, 927, 948). -/
def channelBindingsPatches : List (String × PropRule) :=
  [ ("http", .inlineNode "HttpChannelBinding"),
    ("ws", .inlineNode "WsChannelBinding"),
    ("kafka", .inlineNode "KafkaChannelBinding"),
    ("anypointmq", .inlineNode "AnypointmqChannelBinding"),
    ("amqp", .inlineNode "AmqpChannelBinding"),
    ("amqp1", .inlineNode "Amqp1ChannelBinding"),
    ("mqtt", .inlineNode "MqttChannelBinding"),
    ("mqtt5", .inlineNode "Mqtt5ChannelBinding"),
    ("nats", .inlineNode "NatsChannelBinding"),
    ("jms", .inlineNode "JmsChannelBinding"),
    ("solace", .inlineNode "SolaceChannelBinding"),
    ("stomp", .inlineNode "StompChannelBinding"),
    ("redis", .inlineNode "RedisChannelBinding"),
    ("mercure", .inlineNode "MercureChannelBinding") ]

/-- The `ServerBindings.properties.X = ...` patch statements, in source
order (asyncapi2.ts lines 556, 593, 629, 664, 688, 726, 765, 792, 813, 841,
873, 911, 932, 953). -/
def serverBindingsPatches : List (String × PropRule) :=
  [ ("http", .inlineNode "HttpServerBinding"),
    ("ws", .inlineNode "WsServerBinding"),
    ("kafka", .inlineNode "KafkaServerBinding"),
    ("anypointmq", .inlineNode "AnypointmqServerBinding"),
    ("amqp", .inlineNode "AmqpServerBinding"),
    ("amqp1", .inlineNode "Amqp1ServerBinding"),
    ("mqtt", .inlineNode "MqttServerBinding"),
    ("mqtt5", .inlineNode "Mqtt5ServerBinding"),
    ("nats", .inlineNode "NatsServerBinding"),
    ("jms", .inlineNode "JmsServerBinding"),
    ("solace", .inlineNode "SolaceServerBinding"),
    ("stomp", .inlineNode "StompServerBinding"),
    ("redis", .inlineNode "RedisServerBinding"),
    ("mercure", .inlineNode "MercureServerBinding") ]

/-- The `MessageBindings.properties.X = ...` patch statements, in source
order (asyncapi2.ts lines 564, 598, 640, 672, 697, 731, 772, 797, 818, 849,
878, 916, 937, 958). -/
def messageBindingsPatches : List (String × PropRule) :=
  [ ("http", .inlineNode "HttpMessageBinding"),
    ("ws", .inlineNode "WsMessageBinding"),
    ("kafka", .inlineNode "KafkaMessageBinding"),
    ("anypointmq", .inlineNode "AnypointmqMessageBinding"),
    ("amqp", .inlineNode "AmqpMessageBinding"),
    ("amqp1", .inlineNode "Amqp1MessageBinding"),
    ("mqtt", .inlineNode "MqttMessageBinding"),
    ("mqtt5", .inlineNode "Mqtt5MessageBinding"),
    ("nats", .inlineNode "NatsMessageBinding"),
    ("jms", .inlineNode "JmsMessageBinding"),
    ("solace", .inlineNode "SolaceMessageBinding"),
    ("stomp", .inlineNode "StompMessageBinding"),
    ("redis", .inlineNode "RedisMessageBinding"),
    ("mercure", .inlineNode "MercureMessageBinding") ]

/-- The `OperationBindings.properties.X = ...` patch statements, in source
order (asyncapi2.ts lines 577, 603, 649, 677, 715, 736, 781, 802, 826, 857,
898, 921, 942, 963). -/
def operationBindingsPatches : List (String × PropRule) :=
  [ ("http", .inlineNode "HttpOperationBinding"),
    ("ws", .inlineNode "WsOperationBinding"),
    ("kafka", .inlineNode "KafkaOperationBinding"),
    ("anypointmq", .inlineNode "AnypointmqOperationBinding"),
    ("amqp", .inlineNode "AmqpOperationBinding"),
    ("amqp1", .inlineNode "Amqp1OperationBinding"),
    ("mqtt", .inlineNode "MqttOperationBinding"),
    ("mqtt5", .inlineNode "Mqtt5OperationBinding"),
    ("nats", .inlineNode "NatsOperationBinding"),
    ("jms", .inlineNode "JmsOperationBinding"),
    ("solace", .inlineNode "SolaceOperationBinding"),
    ("stomp", .inlineNode "StompOperationBinding"),
    ("redis", .inlineNode "RedisOperationBinding"),
    ("mercure", .inlineNode "MercureOperationBinding") ]

/-- asyncapi2.ts `ChannelBindings` after all module-level patch statements
have executed. -/
def ChannelBindings : NodeType :=
  channelBindingsPatches.foldl (fun D p => setProp D p.1 p.2) ChannelBindings0

/-- asyncapi2.ts `ServerBindings` after all module-level patch statements. -/
def ServerBindings : NodeType :=
  serverBindingsPatches.foldl (fun D p => setProp D p.1 p.2) ServerBindings0

/-- asyncapi2.ts `MessageBindings` after all module-level patch statements. -/
def MessageBindings : NodeType :=
  messageBindingsPatches.foldl (fun D p => setProp D p.1 p.2) MessageBindings0

/-- asyncapi2.ts `OperationBindings` after all module-level patch
statements. -/
def OperationBindings : NodeType :=
  operationBindingsPatches.foldl (fun D p => setProp D p.1 p.2) OperationBindings0

/-- asyncapi2.ts `SecurityScheme` (lines 483-543), with the conditional
`required` (lines 510-525) and `allowed` (lines 526-541) functions. -/
def SecurityScheme : NodeType :=
  { properties :=
      [ ("type", .leaf (sEnum ["userPassword", "apiKey", "X509",
          "symmetricEncryption", "asymmetricEncryption", "httpApiKey",
          "http", "oauth2", "openIdConnect", "plain", "scramSha256",
          "scramSha512", "gssapi"])),
        ("description", .leaf sString),
        ("name", .leaf sString),
        ("in", .leaf (sStrEnum ["query", "header", "cookie", "user", "password"])),
        ("scheme", .leaf sString),
        ("bearerFormat", .leaf sString),
        ("flows", .ref "SecuritySchemeFlows"),
        ("openIdConnectUrl", .leaf sString) ],
    required := some .async2SecuritySchemeReq,
    allowed := some .async2SecuritySchemeAllow,
    extensionsPrefix := some "x-" }

end Async2

/-- C1: for the OpenAPI 3 SecurityScheme descriptor, the conditional
`required` function returns `[type, name, in]` when `v.type === apiKey`
and `[type, scheme]` when `v.type === http`; consequently the
missing-required-keys check on `{type:http, scheme:bearer}` reports no
missing keys and on `{type:apiKey}` reports exactly `{name, in}`. -/
theorem oas3_securityScheme_required_and_missing_keys :
    (∀ v, getField v "type" = some (.jstr "apiKey") →
      oas3SecuritySchemeRequiredFn v = ["type", "name", "in"])
    ∧ (∀ v, getField v "type" = some (.jstr "http") →
      oas3SecuritySchemeRequiredFn v = ["type", "scheme"])
    ∧ checkRequired Oas3_core.SecurityScheme
        (.jobj [("type", .jstr "http"), ("scheme", .jstr "bearer")]) = []
    ∧ checkRequired Oas3_core.SecurityScheme
        (.jobj [("type", .jstr "apiKey")]) = ["name", "in"] := by
  refine ⟨?_, ?_, rfl, rfl⟩
  · intro v h
    unfold oas3SecuritySchemeRequiredFn
    rw [h]
    rfl
  · intro v h
    unfold oas3SecuritySchemeRequiredFn
    rw [h]
    rfl

/-- Closed instantiation of the two conditional parts of
`oas3_securityScheme_required_and_missing_keys` at concrete values. -/
theorem oas3_securityScheme_required_and_missing_keys_witness :
    oas3SecuritySchemeRequiredFn (.jobj [("type", .jstr "apiKey")])
      = ["type", "name", "in"]
    ∧ oas3SecuritySchemeRequiredFn
        (.jobj [("type", .jstr "http"), ("scheme", .jstr "bearer")])
      = ["type", "scheme"] :=
  ⟨oas3_securityScheme_required_and_missing_keys.1 _ rfl,
   oas3_securityScheme_required_and_missing_keys.2.1 _ rfl⟩

/-- C4: the OpenAPI 3 `Paths` descriptor (empty `properties`) resolves a
child key to the Reference `PathItem` exactly when the key starts with `/`;
any other key makes the additional-properties resolver return Undetermined,
surfaced as rejection (`none`). -/
theorem oas3_paths_resolution :
    Oas3_core.Paths.properties = []
    ∧ Oas3_p0.Paths.properties = []
    ∧ (∀ K v, resolveChild Oas3_core.Paths K v =
        if strStartsWith K "/" then some (.ref "PathItem") else none)
    ∧ (∀ K v, resolveChild Oas3_p0.Paths K v =
        if strStartsWith K "/" then some (.ref "PathItem") else none) :=
  ⟨rfl, rfl, fun _ _ => rfl, fun _ _ => rfl⟩

/-- C5: the OpenAPI 3 `DiscriminatorMapping` catch-all resolver classifies
every entry value: pointer-shaped values (per `isMappingRef`) become the
`{type:string, directResolveAs:Schema}` rule, every other value (e.g.
the plain label `"Dog"`) becomes the plain `{type:string}` leaf. -/
theorem oas3_discriminatorMapping_classification :
    (∀ K v, resolveChild Oas3_core.DiscriminatorMapping K v =
      if isMappingRef v then some (.leaf sStringDirectSchema)
      else some (.leaf sString))
    ∧ isMappingRef (.jstr "Dog") = false
    ∧ resolveChild Oas3_core.DiscriminatorMapping "Dog" (.jstr "Dog")
        = some (.leaf sString)
    ∧ isMappingRef (.jstr "#/components/schemas/Dog") = true
    ∧ resolveChild Oas3_core.DiscriminatorMapping "Dog"
        (.jstr "#/components/schemas/Dog") = some (.leaf sStringDirectSchema) :=
  ⟨fun _ _ => rfl, by rfl, by rfl, by rfl, by rfl⟩

/-- C6: after all module-level patch statements of the AsyncAPI 2 module,
`ChannelBindings.properties` holds exactly the fourteen patched protocol
keys, in patch order: the original (empty) key set plus exactly the
injected keys. -/
theorem async2_channelBindings_patched_keys :
    Async2.ChannelBindings0.properties = []
    ∧ Async2.ChannelBindings.properties.map Prod.fst =
        ["http", "ws", "kafka", "anypointmq", "amqp", "amqp1", "mqtt",
         "mqtt5", "nats", "jms", "solace", "stomp", "redis", "mercure"]
    ∧ Async2.ChannelBindings.properties.map Prod.fst =
        Async2.ChannelBindings0.properties.map Prod.fst
          ++ Async2.channelBindingsPatches.map Prod.fst :=
  ⟨rfl, rfl, rfl⟩

/-- C10: the `allowed()` functions of the four AsyncAPI 2 bindings
descriptors ignore their input and return the fixed 19-element protocol
list, and every key of that list is classifiable on each of the four
descriptors (patched `properties` entry or the static `{type:object}`
additional-properties rule), so no allowed key is rejected as unknown. -/
theorem async2_bindings_allowed_constant_and_classifiable :
    (∀ v, evalAllowed AllowedRule.asyncApi2BindingsAllow v
      = asyncApi2BindingsAllowedList)
    ∧ Async2.ChannelBindings.allowed = some AllowedRule.asyncApi2BindingsAllow
    ∧ Async2.ServerBindings.allowed = some AllowedRule.asyncApi2BindingsAllow
    ∧ Async2.MessageBindings.allowed = some AllowedRule.asyncApi2BindingsAllow
    ∧ Async2.OperationBindings.allowed = some AllowedRule.asyncApi2BindingsAllow
    ∧ asyncApi2BindingsAllowedList.length = 19
    ∧ (∀ v, asyncApi2BindingsAllowedList.all (fun K =>
        (resolveChild Async2.ChannelBindings K v).isSome
        && (resolveChild Async2.ServerBindings K v).isSome
        && (resolveChild Async2.MessageBindings K v).isSome
        && (resolveChild Async2.OperationBindings K v).isSome) = true) :=
  ⟨fun _ => rfl, rfl, rfl, rfl, rfl, rfl, fun _ => rfl⟩

/-- C3: on the OpenAPI 3 `Responses` descriptor, the key `default` resolves
to the Reference `Response` through the explicit `properties` entry without
consulting `additionalProperties` (the resolver would have rejected
`default`, as `isResponseCodeKey "default" = false`); every other key
resolves to `Response` exactly when it matches `^[0-9][0-9Xx]{2}$` and is
rejected otherwise. -/
theorem oas3_responses_resolution :
    (∀ v, resolveChild Oas3_core.Responses "default" v = some (.ref "Response"))
    ∧ isResponseCodeKey "default" = false
    ∧ (∀ K v, K ≠ "default" →
        resolveChild Oas3_core.Responses K v =
          if isResponseCodeKey K then some (.ref "Response") else none) := by
  refine ⟨fun v => rfl, by decide, ?_⟩
  intro K v h
  have hb : (K == "default") = false := beq_eq_false_iff_ne.mpr h
  simp [resolveChild, Oas3_core.Responses, List.lookup, hb, extMatches,
        evalRule, evalResolverOutcome]

/-- Closed instantiation of `oas3_responses_resolution` at the non-`default`
keys `201` (a response code, accepted) and `abc` (rejected). -/
theorem oas3_responses_resolution_witness :
    ("201" : String) ≠ "default" ∧ ("abc" : String) ≠ "default"
    ∧ resolveChild Oas3_core.Responses "201" .jnull = some (.ref "Response")
    ∧ resolveChild Oas3_core.Responses "abc" .jnull = none := by
  refine ⟨by decide, by decide, ?_, ?_⟩
  · exact (oas3_responses_resolution.2.2 "201" .jnull (by decide)).trans (by rfl)
  · exact (oas3_responses_resolution.2.2 "abc" .jnull (by decide)).trans (by rfl)

/-- C2: the allow-list law: whenever the `allowed` rule of a descriptor is
defined, every key present on the node value that is outside the resolved
allow-list and does not match the extension prefix is reported as
disallowed by `checkAllowed`, independently of `properties` /
`additionalProperties` classification. -/
theorem checkAllowed_reports_disallowed_key
    (D : NodeType) (a : AllowedRule) (V : JValue) (K : String)
    (hA : D.allowed = some a)
    (hK : K ∈ keysOf V)
    (hNot : K ∉ evalAllowed a V)
    (hExt : extMatches ( NodeType.extensionsPrefix D) K = false) :
    K ∈ checkAllowed D V := by
  unfold checkAllowed
  rw [hA]
  refine List.mem_filter.mpr ⟨hK, ?_⟩
  have hc : (evalAllowed a V).contains K = false := by simpa using hNot
  simp [hc, hExt, hNot]

/-- Closed instantiation of `checkAllowed_reports_disallowed_key`:
`bearerFormat` on an OpenAPI 3 SecurityScheme value of type `apiKey` is
reported as disallowed although `bearerFormat` is listed in the
`properties` of the descriptor. -/
theorem checkAllowed_reports_disallowed_key_witness :
    Oas3_core.SecurityScheme.allowed = some AllowedRule.oas3SecuritySchemeAllow
    ∧ "bearerFormat" ∈ keysOf
        (.jobj [("type", .jstr "apiKey"), ("bearerFormat", .jstr "JWT")])
    ∧ "bearerFormat" ∉ evalAllowed AllowedRule.oas3SecuritySchemeAllow
        (.jobj [("type", .jstr "apiKey"), ("bearerFormat", .jstr "JWT")])
    ∧ "bearerFormat" ∈ Oas3_core.SecurityScheme.properties.map Prod.fst
    ∧ "bearerFormat" ∈ checkAllowed Oas3_core.SecurityScheme
        (.jobj [("type", .jstr "apiKey"), ("bearerFormat", .jstr "JWT")]) := by
  refine ⟨rfl, by decide, by decide, by decide, ?_⟩
  exact checkAllowed_reports_disallowed_key Oas3_core.SecurityScheme
    AllowedRule.oas3SecuritySchemeAllow
    (.jobj [("type", .jstr "apiKey"), ("bearerFormat", .jstr "JWT")])
    "bearerFormat" rfl (by decide) (by decide) (by decide)

/-- C8: the conditional `required` functions of the two SecurityScheme
descriptors are deterministic functions of the discriminant `value?.type`
(so repeated calls with equal inputs agree), and on every discriminant
value of the known domain they return a fixed constant key set. -/
theorem securityScheme_required_deterministic :
    (∀ v1 v2, getField v1 "type" = getField v2 "type" →
      oas3SecuritySchemeRequiredFn v1 = oas3SecuritySchemeRequiredFn v2
      ∧ async2SecuritySchemeRequiredFn v1 = async2SecuritySchemeRequiredFn v2)
    ∧ (∀ v, getField v "type" = some (.jstr "apiKey") →
        oas3SecuritySchemeRequiredFn v = ["type", "name", "in"]
        ∧ async2SecuritySchemeRequiredFn v = ["type", "in"])
    ∧ (∀ v, getField v "type" = some (.jstr "httpApiKey") →
        async2SecuritySchemeRequiredFn v = ["type", "name", "in"])
    ∧ (∀ v, getField v "type" = some (.jstr "http") →
        oas3SecuritySchemeRequiredFn v = ["type", "scheme"]
        ∧ async2SecuritySchemeRequiredFn v = ["type", "scheme"])
    ∧ (∀ v, getField v "type" = some (.jstr "oauth2") →
        oas3SecuritySchemeRequiredFn v = ["type", "flows"]
        ∧ async2SecuritySchemeRequiredFn v = ["type", "flows"])
    ∧ (∀ v, getField v "type" = some (.jstr "openIdConnect") →
        oas3SecuritySchemeRequiredFn v = ["type", "openIdConnectUrl"]
        ∧ async2SecuritySchemeRequiredFn v = ["type", "openIdConnectUrl"])
    ∧ (∀ v, getField v "type" = none →
        oas3SecuritySchemeRequiredFn v = ["type"]
        ∧ async2SecuritySchemeRequiredFn v = ["type"]) := by
  refine ⟨?_, ?_, ?_, ?_, ?_, ?_, ?_⟩
  · intro v1 v2 h
    constructor
    · unfold oas3SecuritySchemeRequiredFn
      rw [h]
    · unfold async2SecuritySchemeRequiredFn
      rw [h]
  all_goals intro v h
  · exact ⟨by unfold oas3SecuritySchemeRequiredFn; rw [h]; rfl,
           by unfold async2SecuritySchemeRequiredFn; rw [h]; rfl⟩
  · unfold async2SecuritySchemeRequiredFn; rw [h]; rfl
  all_goals exact ⟨by unfold oas3SecuritySchemeRequiredFn; rw [h]; try rfl,
                   by unfold async2SecuritySchemeRequiredFn; rw [h]; try rfl⟩

/-- Closed instantiation of `securityScheme_required_deterministic`: the
determinism clause at two distinct values sharing the discriminant
`http`, and the `apiKey` clause at a concrete value. -/
theorem securityScheme_required_deterministic_witness :
    (oas3SecuritySchemeRequiredFn (.jobj [("type", .jstr "http")])
      = oas3SecuritySchemeRequiredFn
          (.jobj [("scheme", .jstr "basic"), ("type", .jstr "http")]))
    ∧ oas3SecuritySchemeRequiredFn (.jobj [("type", .jstr "apiKey")])
        = ["type", "name", "in"] :=
  ⟨(securityScheme_required_deterministic.1
      (.jobj [("type", .jstr "http")])
      (.jobj [("scheme", .jstr "basic"), ("type", .jstr "http")]) rfl).1,
   (securityScheme_required_deterministic.2.1
      (.jobj [("type", .jstr "apiKey")]) rfl).1⟩

/-- Case analysis: the OpenAPI 3 SecurityScheme `required`/`allowed` pair
takes one of five constant forms, one per discriminant case. -/
theorem oas3SecuritySchemePairCases (v : JValue) :
    (oas3SecuritySchemeRequiredFn v = ["type", "name", "in"]
      ∧ oas3SecuritySchemeAllowedFn v = ["type", "name", "in", "description"])
    ∨ (oas3SecuritySchemeRequiredFn v = ["type", "scheme"]
      ∧ oas3SecuritySchemeAllowedFn v
          = ["type", "scheme", "bearerFormat", "description"])
    ∨ (oas3SecuritySchemeRequiredFn v = ["type", "flows"]
      ∧ oas3SecuritySchemeAllowedFn v = ["type", "flows", "description"])
    ∨ (oas3SecuritySchemeRequiredFn v = ["type", "openIdConnectUrl"]
      ∧ oas3SecuritySchemeAllowedFn v
          = ["type", "openIdConnectUrl", "description"])
    ∨ (oas3SecuritySchemeRequiredFn v = ["type"]
      ∧ oas3SecuritySchemeAllowedFn v = ["type", "description"]) := by
  unfold oas3SecuritySchemeRequiredFn oas3SecuritySchemeAllowedFn
  split <;> simp_all

/-- Case analysis: the AsyncAPI 2 SecurityScheme `required`/`allowed` pair
takes one of six constant forms, one per discriminant case. -/
theorem async2SecuritySchemePairCases (v : JValue) :
    (async2SecuritySchemeRequiredFn v = ["type", "in"]
      ∧ async2SecuritySchemeAllowedFn v = ["type", "in", "description"])
    ∨ (async2SecuritySchemeRequiredFn v = ["type", "name", "in"]
      ∧ async2SecuritySchemeAllowedFn v = ["type", "name", "in", "description"])
    ∨ (async2SecuritySchemeRequiredFn v = ["type", "scheme"]
      ∧ async2SecuritySchemeAllowedFn v
          = ["type", "scheme", "bearerFormat", "description"])
    ∨ (async2SecuritySchemeRequiredFn v = ["type", "flows"]
      ∧ async2SecuritySchemeAllowedFn v = ["type", "flows", "description"])
    ∨ (async2SecuritySchemeRequiredFn v = ["type", "openIdConnectUrl"]
      ∧ async2SecuritySchemeAllowedFn v
          = ["type", "openIdConnectUrl", "description"])
    ∨ (async2SecuritySchemeRequiredFn v = ["type"]
      ∧ async2SecuritySchemeAllowedFn v = ["type", "description"]) := by
  unfold async2SecuritySchemeRequiredFn async2SecuritySchemeAllowedFn
  split <;> simp_all

/-- C9: for every input value (including null and undefined, via the
optional chaining on `value?.type`), the SecurityScheme descriptors of both
dialects satisfy `required(v) ⊆ allowed(v)`, and both sets always contain
`type`. -/
theorem securityScheme_required_subset_allowed :
    ∀ v,
      (∀ k ∈ oas3SecuritySchemeRequiredFn v, k ∈ oas3SecuritySchemeAllowedFn v)
      ∧ "type" ∈ oas3SecuritySchemeRequiredFn v
      ∧ "type" ∈ oas3SecuritySchemeAllowedFn v
      ∧ (∀ k ∈ async2SecuritySchemeRequiredFn v,
          k ∈ async2SecuritySchemeAllowedFn v)
      ∧ "type" ∈ async2SecuritySchemeRequiredFn v
      ∧ "type" ∈ async2SecuritySchemeAllowedFn v := by
  intro v
  rcases oas3SecuritySchemePairCases v with
    ⟨h1, h2⟩ | ⟨h1, h2⟩ | ⟨h1, h2⟩ | ⟨h1, h2⟩ | ⟨h1, h2⟩ <;>
  rcases async2SecuritySchemePairCases v with
    ⟨h3, h4⟩ | ⟨h3, h4⟩ | ⟨h3, h4⟩ | ⟨h3, h4⟩ | ⟨h3, h4⟩ | ⟨h3, h4⟩ <;>
  · rw [h1, h2, h3, h4]
    decide

/-- Closed instantiation of `securityScheme_required_subset_allowed` at the
concrete value `{type:http}`, discharging the subset hypothesis for the
mandatory key `scheme`. -/
theorem securityScheme_required_subset_allowed_witness :
    "scheme" ∈ oas3SecuritySchemeAllowedFn (.jobj [("type", .jstr "http")])
    ∧ "type" ∈ async2SecuritySchemeRequiredFn (.jobj [("type", .jstr "http")]) :=
  ⟨(securityScheme_required_subset_allowed
      (.jobj [("type", .jstr "http")])).1 "scheme" (by decide),
   (securityScheme_required_subset_allowed
      (.jobj [("type", .jstr "http")])).2.2.2.2.1⟩

/-- C7: the two OpenAPI 3 descriptor tables (the `Oas3Types` exports of
oas3.ts and of part_000) are validation-semantically equivalent: stripped
of descriptive-only fields they are equal entry for entry, hence every type
name yields the same resolution outcome for every child key and value, the
same missing-required and disallowed-key reports, and the same
`requiredOneOf` and `extensionsPrefix` behaviour. -/
theorem oas3_tables_equivalent :
    Oas3_core.Oas3Types = Oas3_p0.Oas3Types
    ∧ (∀ n K v,
        (List.lookup n Oas3_core.Oas3Types).map (fun D => resolveChild D K v)
          = (List.lookup n Oas3_p0.Oas3Types).map (fun D => resolveChild D K v))
    ∧ (∀ n v,
        (List.lookup n Oas3_core.Oas3Types).map (fun D => checkRequired D v)
          = (List.lookup n Oas3_p0.Oas3Types).map (fun D => checkRequired D v))
    ∧ (∀ n v,
        (List.lookup n Oas3_core.Oas3Types).map (fun D => checkAllowed D v)
          = (List.lookup n Oas3_p0.Oas3Types).map (fun D => checkAllowed D v))
    ∧ (∀ n,
        (List.lookup n Oas3_core.Oas3Types).map (fun D => D.requiredOneOf)
          = (List.lookup n Oas3_p0.Oas3Types).map (fun D => D.requiredOneOf))
    ∧ (∀ n,
        (List.lookup n Oas3_core.Oas3Types).map (fun D => NodeType.extensionsPrefix D)
          = (List.lookup n Oas3_p0.Oas3Types).map
              (fun D => NodeType.extensionsPrefix D)) := by
  have h : Oas3_core.Oas3Types = Oas3_p0.Oas3Types := rfl
  exact ⟨h, fun n K v => by rw [h], fun n v => by rw [h], fun n v => by rw [h],
         fun n => by rw [h], fun n => by rw [h]⟩
